import Mathlib

/-!
Verification of the Session & Message Orchestrator of
`frontend/streamlit_app.py` (class `MedicalChatbotUI`).

The Streamlit session state (`st.session_state`) is modelled as an explicit
`ConversationState` record. Each HTTP call made through `requests.post` is
modelled by an `HttpResult` oracle value passed to the operation, covering
the three arms of the source's `try`/`except` blocks: a response with a
status code and parsed body, a `requests.exceptions.ConnectionError`, and
any other exception. Calls to `st.error` are collected in a list of
surfaced error strings.
-/

/-- Role of a chat message: the `"role"` field of the dictionaries stored in
`st.session_state.messages`, which is always `"user"` or `"assistant"`. -/
inductive Role where
  | user
  | assistant
deriving DecidableEq

/-- One entry of `st.session_state.messages`: a dictionary
`{"role": ..., "content": ...}`. -/
structure Message where
  role : Role
  content : String
deriving DecidableEq

/-- The orchestrator-owned part of `st.session_state`, as set up by
`initialize_session_state`: `session_id` (a string or `None`), the ordered
message log, and the current suggestion list. -/
structure ConversationState where
  session_id : Option String
  messages : List Message
  suggestions : List String
deriving DecidableEq

/-- Parsed JSON body of a `/chat` response: the `"response"` and
`"suggestions"` fields read in `send_message`. -/
structure ChatBody where
  response : String
  suggestions : List String
deriving DecidableEq

/-- Outcome of one `requests.post` call: a response carrying a status code
and (when read) a parsed body, a `requests.exceptions.ConnectionError`, or
any other exception with its message. -/
inductive HttpResult (β : Type) where
  | ok (status : Nat) (body : β)
  | connError
  | exc (msg : String)
deriving DecidableEq

/-- Python truthiness of the `session_id` slot: `None` and the empty string
are falsy. This is the test performed twice by
`if not st.session_state.session_id` in `send_message`. -/
def truthy : Option String → Bool
  | none => false
  | some s => s != ""

/-- MedicalChatbotUI.create_session: POSTs to `/session`. On HTTP 200 it
stores the returned `session_id` and clears the message and suggestion
lists; on any other status, on a connection error, or on any other
exception it leaves the state unchanged and surfaces an `st.error` string.
The result is the new state together with the surfaced error strings. -/
def create_session (st : ConversationState) :
    HttpResult String → ConversationState × List String
  | .ok status sid =>
      if status = 200 then
        ({ session_id := some sid, messages := [], suggestions := [] }, [])
      else
        (st, ["Failed to create a new session. Please ensure the backend is running."])
  | .connError =>
      (st, ["Connection Error: Could not connect to the API server."])
  | .exc e =>
      (st, ["An unexpected error occurred: " ++ e])

/-- The sidebar button "🔄 Start New Conversation" invokes `create_session`
directly; the spec's `reset` operation is exactly that call. -/
def reset : ConversationState → HttpResult String → ConversationState × List String :=
  create_session

/-- Result of `send_message`: the updated state, the `st.error` strings
surfaced during the call, and whether the POST to `/chat` was attempted. -/
structure SendResult where
  state : ConversationState
  errors : List String
  exchangeAttempted : Bool
deriving DecidableEq

/-- Tail of MedicalChatbotUI.send_message from the optimistic append of the
user message onwards: the `st.session_state.messages.append({"role": "user",
...})` line followed by the `try` block around the POST to `/chat`. `errs`
carries error strings already surfaced earlier in the call. -/
def sendExchange (st : ConversationState) (message : String)
    (er : HttpResult ChatBody) (errs : List String) : SendResult :=
  let st1 : ConversationState :=
    { st with messages := st.messages ++ [⟨Role.user, message⟩] }
  match er with
  | .ok status body =>
      if status = 200 then
        ⟨{ st1 with
            messages := st1.messages ++ [⟨Role.assistant, body.response⟩],
            suggestions := body.suggestions }, errs, true⟩
      else
        ⟨{ st1 with
            messages := st1.messages ++
              [⟨Role.assistant, "Sorry, I encountered an error. Please try again."⟩] },
          errs ++ ["Error: Received status code " ++ toString status ++ " from the server."],
          true⟩
  | .connError =>
      ⟨{ st1 with
          messages := st1.messages ++
            [⟨Role.assistant, "I can\x27t connect to my brain right now. Please check the server."⟩] },
        errs ++ ["Connection Error: Could not send message. Please check the backend server."],
        true⟩
  | .exc e =>
      ⟨st1, errs ++ ["An unexpected error occurred while sending the message: " ++ e], true⟩

/-- MedicalChatbotUI.send_message: when the session id is falsy it first
calls `create_session` (the source then does `time.sleep(0.5)`, a pure
delay with no state effect) and returns early if the session id is still
falsy; otherwise it appends the user message and performs the `/chat`
exchange. `cr` is the outcome of the inner session-creation POST (never
consulted when a session already exists) and `er` the outcome of the
`/chat` POST (never consulted when the call returns early). -/
def send_message (st : ConversationState) (message : String)
    (cr : HttpResult String) (er : HttpResult ChatBody) : SendResult :=
  if truthy st.session_id then
    sendExchange st message er []
  else
    let p := create_session st cr
    if truthy p.1.session_id then
      sendExchange p.1 message er p.2
    else
      ⟨p.1, p.2, false⟩

/-- One collaborator-triggered orchestrator call together with the transport
outcomes of the HTTP requests it may issue. `create` covers both
`startSession` and `reset`, which are the same source function. -/
inductive Step where
  | create (r : HttpResult String)
  | send (text : String) (cr : HttpResult String) (er : HttpResult ChatBody)

/-- Apply one step to a state, discarding the surfaced errors. -/
def stepFn (st : ConversationState) : Step → ConversationState
  | .create r => (create_session st r).1
  | .send t cr er => (send_message st t cr er).state

/-- Run a sequence of steps from a state. -/
def run : ConversationState → List Step → ConversationState
  | st, [] => st
  | st, s :: rest => run (stepFn st s) rest

/-- Initial client state, as set by `initialize_session_state`:
`session_id = None`, `messages = []`, `suggestions = []`. -/
def initState : ConversationState := ⟨none, [], []⟩

/-- The reachability invariant of claim C1: an absent session forces an
empty log and empty suggestions. -/
def StateInv (st : ConversationState) : Prop :=
  st.session_id = none → st.messages = [] ∧ st.suggestions = []

lemma truthy_ne_none {o : Option String} (h : truthy o = true) : o ≠ none := by
  cases o with
  | none => simp [truthy] at h
  | some s => simp

lemma create_session_inv (st : ConversationState) (r : HttpResult String)
    (h : StateInv st) : StateInv (create_session st r).1 := by
  cases r with
  | ok status sid =>
      by_cases hs : status = 200
      · intro hnone
        simp [create_session, hs] at hnone
      · simpa [create_session, hs, StateInv] using h
  | connError => simpa [create_session] using h
  | exc e => simpa [create_session] using h

lemma sendExchange_session (st : ConversationState) (m : String)
    (er : HttpResult ChatBody) (errs : List String) :
    (sendExchange st m er errs).state.session_id = st.session_id := by
  cases er with
  | ok status body =>
      by_cases hs : status = 200 <;> simp [sendExchange, hs]
  | connError => simp [sendExchange]
  | exc e => simp [sendExchange]

lemma send_message_inv (st : ConversationState) (t : String)
    (cr : HttpResult String) (er : HttpResult ChatBody)
    (h : StateInv st) : StateInv (send_message st t cr er).state := by
  unfold send_message
  split
  · rename_i ht
    intro hnone
    rw [sendExchange_session] at hnone
    exact absurd hnone (truthy_ne_none ht)
  · dsimp only
    split
    · rename_i ht
      intro hnone
      rw [sendExchange_session] at hnone
      exact absurd hnone (truthy_ne_none ht)
    · exact create_session_inv st cr h

lemma run_inv (steps : List Step) : ∀ st : ConversationState,
    StateInv st → StateInv (run st steps) := by
  induction steps with
  | nil => intro st h; exact h
  | cons s rest ih =>
      intro st h
      refine ih (stepFn st s) ?_
      cases s with
      | create r => exact create_session_inv st r h
      | send t cr er => exact send_message_inv st t cr er h

/-- C1: for every state reached from the initial all-empty state by any
sequence of session-creation/reset and send-message calls with any transport
outcomes, if the session identifier is absent then the message log and the
suggestion list are both empty. -/
theorem C1_absent_session_empty_state (steps : List Step)
    (h : (run initState steps).session_id = none) :
    (run initState steps).messages = [] ∧ (run initState steps).suggestions = [] := by
  exact run_inv steps initState (by intro _; exact ⟨rfl, rfl⟩) h

theorem C1_absent_session_empty_state_witness :
    (run initState [Step.create HttpResult.connError]).session_id = none ∧
    ((run initState [Step.create HttpResult.connError]).messages = [] ∧
      (run initState [Step.create HttpResult.connError]).suggestions = []) :=
  ⟨rfl, C1_absent_session_empty_state [Step.create HttpResult.connError] rfl⟩

/-- C7: when `create_session` hits a connection error (`Unreachable`), the
whole conversation state is left unchanged and exactly one connectivity
error string is surfaced to the collaborator. -/
theorem C7_create_unreachable_frame (st : ConversationState) :
    create_session st HttpResult.connError =
      (st, ["Connection Error: Could not connect to the API server."]) := by
  rfl

lemma sendExchange_attempted (st : ConversationState) (m : String)
    (er : HttpResult ChatBody) (errs : List String) :
    (sendExchange st m er errs).exchangeAttempted = true := by
  cases er with
  | ok status body =>
      by_cases hs : status = 200 <;> simp [sendExchange, hs]
  | connError => simp [sendExchange]
  | exc e => simp [sendExchange]

/-- C2: if `send_message` is called with no session and the inner session
creation fails (connection error or non-200 status), the call returns with
the state unchanged (session still absent, log and suggestions untouched)
and without attempting the `/chat` exchange. -/
theorem C2_send_aborts_when_creation_fails (st : ConversationState)
    (t : String) (cr : HttpResult String) (er : HttpResult ChatBody)
    (hnone : st.session_id = none)
    (hfail : cr = HttpResult.connError ∨ ∃ k b, cr = HttpResult.ok k b ∧ k ≠ 200) :
    (send_message st t cr er).state = st ∧
    (send_message st t cr er).exchangeAttempted = false := by
  have htr : truthy st.session_id = false := by rw [hnone]; rfl
  have hcr : (create_session st cr).1 = st := by
    rcases hfail with h | ⟨k, b, hk, hne⟩
    · subst h; rfl
    · subst hk; simp [create_session, hne]
  refine ⟨?_, ?_⟩ <;> simp [send_message, htr, hcr]

theorem C2_send_aborts_when_creation_fails_witness :
    (initState.session_id = none ∧
      ((HttpResult.connError : HttpResult String) = HttpResult.connError ∨
        ∃ (k : Nat) (b : String),
          (HttpResult.connError : HttpResult String) = HttpResult.ok k b ∧ k ≠ 200)) ∧
    ((send_message initState "hi" HttpResult.connError
        (HttpResult.ok 200 ⟨"r", []⟩)).state = initState ∧
      (send_message initState "hi" HttpResult.connError
        (HttpResult.ok 200 ⟨"r", []⟩)).exchangeAttempted = false) :=
  ⟨⟨rfl, Or.inl rfl⟩,
    C2_send_aborts_when_creation_fails initState "hi" HttpResult.connError
      (HttpResult.ok 200 ⟨"r", []⟩) rfl (Or.inl rfl)⟩

/-- C3 counterexample: the claim says every transport-error path appends a
user-visible assistant message. On a connection error during
`create_session` (here from the initial state), an error string is surfaced
but no assistant message is appended to the log: the log stays empty. -/
theorem C3_counterexample_create_appends_nothing :
    (create_session initState HttpResult.connError).2 ≠ [] ∧
    ¬ ∃ m, (create_session initState HttpResult.connError).1.messages =
        initState.messages ++ [⟨Role.assistant, m⟩] := by
  constructor
  · simp [create_session]
  · rintro ⟨m, hm⟩
    simp [create_session, initState] at hm

/-- C3 (amended): no transport-error outcome escapes as an unhandled fault,
and every such path surfaces a side-channel error notification to the
collaborator; exchange failures (connection error or non-200 status on
`/chat`) additionally append a user-visible assistant message explaining the
failure, but session-creation failures leave the state — in particular the
message log — unchanged, appending no assistant message. -/
theorem C3_amended_error_paths (st : ConversationState) (t : String)
    (k : Nat) (b : String) (body : ChatBody) (cr : HttpResult String)
    (hk : k ≠ 200) (hs : truthy st.session_id = true) :
    ((create_session st HttpResult.connError).2 ≠ [] ∧
      (create_session st HttpResult.connError).1 = st) ∧
    ((create_session st (HttpResult.ok k b)).2 ≠ [] ∧
      (create_session st (HttpResult.ok k b)).1 = st) ∧
    ((send_message st t cr HttpResult.connError).errors ≠ [] ∧
      (send_message st t cr HttpResult.connError).state.messages =
        st.messages ++ [⟨Role.user, t⟩,
          ⟨Role.assistant, "I can\x27t connect to my brain right now. Please check the server."⟩]) ∧
    ((send_message st t cr (HttpResult.ok k body)).errors ≠ [] ∧
      (send_message st t cr (HttpResult.ok k body)).state.messages =
        st.messages ++ [⟨Role.user, t⟩,
          ⟨Role.assistant, "Sorry, I encountered an error. Please try again."⟩]) := by
  refine ⟨⟨?_, rfl⟩, ⟨?_, ?_⟩, ⟨?_, ?_⟩, ⟨?_, ?_⟩⟩
  · simp [create_session]
  · simp [create_session, hk]
  · simp [create_session, hk]
  · simp [send_message, hs, sendExchange]
  · simp [send_message, hs, sendExchange]
  · simp [send_message, hs, sendExchange, hk]
  · simp [send_message, hs, sendExchange, hk]

theorem C3_amended_error_paths_witness :
    ((500 : Nat) ≠ 200 ∧
      truthy (ConversationState.mk (some "sid") [] []).session_id = true) ∧
    (((create_session ⟨some "sid", [], []⟩ HttpResult.connError).2 ≠ [] ∧
      (create_session ⟨some "sid", [], []⟩ HttpResult.connError).1 = ⟨some "sid", [], []⟩) ∧
    ((create_session ⟨some "sid", [], []⟩ (HttpResult.ok 500 "b")).2 ≠ [] ∧
      (create_session ⟨some "sid", [], []⟩ (HttpResult.ok 500 "b")).1 = ⟨some "sid", [], []⟩) ∧
    ((send_message ⟨some "sid", [], []⟩ "hi" HttpResult.connError
        HttpResult.connError).errors ≠ [] ∧
      (send_message ⟨some "sid", [], []⟩ "hi" HttpResult.connError
        HttpResult.connError).state.messages =
        (ConversationState.mk (some "sid") [] []).messages ++ [⟨Role.user, "hi"⟩,
          ⟨Role.assistant, "I can\x27t connect to my brain right now. Please check the server."⟩]) ∧
    ((send_message ⟨some "sid", [], []⟩ "hi" HttpResult.connError
        (HttpResult.ok 500 ⟨"r", []⟩)).errors ≠ [] ∧
      (send_message ⟨some "sid", [], []⟩ "hi" HttpResult.connError
        (HttpResult.ok 500 ⟨"r", []⟩)).state.messages =
        (ConversationState.mk (some "sid") [] []).messages ++ [⟨Role.user, "hi"⟩,
          ⟨Role.assistant, "Sorry, I encountered an error. Please try again."⟩])) :=
  ⟨⟨by decide, by decide⟩,
    C3_amended_error_paths ⟨some "sid", [], []⟩ "hi" 500 "b" ⟨"r", []⟩
      HttpResult.connError (by decide) (by decide)⟩

/-- C4: with an active session, `send_message` first appends the user
message; on a non-200 status from `/chat` it appends the generic apologetic
assistant message, and on a connection error it appends the distinct
cannot-connect assistant message; in both cases the suggestion list is
unchanged and an error is surfaced to the collaborator. -/
theorem C4_exchange_failure_messages (st : ConversationState) (t : String)
    (cr : HttpResult String) (k : Nat) (body : ChatBody)
    (hk : k ≠ 200) (hs : truthy st.session_id = true) :
    ((send_message st t cr (HttpResult.ok k body)).state.messages =
        st.messages ++ [⟨Role.user, t⟩,
          ⟨Role.assistant, "Sorry, I encountered an error. Please try again."⟩] ∧
      (send_message st t cr (HttpResult.ok k body)).state.suggestions = st.suggestions ∧
      (send_message st t cr (HttpResult.ok k body)).errors ≠ []) ∧
    ((send_message st t cr HttpResult.connError).state.messages =
        st.messages ++ [⟨Role.user, t⟩,
          ⟨Role.assistant, "I can\x27t connect to my brain right now. Please check the server."⟩] ∧
      (send_message st t cr HttpResult.connError).state.suggestions = st.suggestions ∧
      (send_message st t cr HttpResult.connError).errors ≠ []) := by
  refine ⟨⟨?_, ?_, ?_⟩, ⟨?_, ?_, ?_⟩⟩ <;>
    simp [send_message, hs, sendExchange, hk]

theorem C4_exchange_failure_messages_witness :
    ((404 : Nat) ≠ 200 ∧
      truthy (ConversationState.mk (some "sid") [] ["old"]).session_id = true) ∧
    (((send_message ⟨some "sid", [], ["old"]⟩ "q" HttpResult.connError
          (HttpResult.ok 404 ⟨"r", ["new"]⟩)).state.messages =
        (ConversationState.mk (some "sid") [] ["old"]).messages ++ [⟨Role.user, "q"⟩,
          ⟨Role.assistant, "Sorry, I encountered an error. Please try again."⟩] ∧
      (send_message ⟨some "sid", [], ["old"]⟩ "q" HttpResult.connError
          (HttpResult.ok 404 ⟨"r", ["new"]⟩)).state.suggestions =
        (ConversationState.mk (some "sid") [] ["old"]).suggestions ∧
      (send_message ⟨some "sid", [], ["old"]⟩ "q" HttpResult.connError
          (HttpResult.ok 404 ⟨"r", ["new"]⟩)).errors ≠ []) ∧
    ((send_message ⟨some "sid", [], ["old"]⟩ "q" HttpResult.connError
          HttpResult.connError).state.messages =
        (ConversationState.mk (some "sid") [] ["old"]).messages ++ [⟨Role.user, "q"⟩,
          ⟨Role.assistant, "I can\x27t connect to my brain right now. Please check the server."⟩] ∧
      (send_message ⟨some "sid", [], ["old"]⟩ "q" HttpResult.connError
          HttpResult.connError).state.suggestions =
        (ConversationState.mk (some "sid") [] ["old"]).suggestions ∧
      (send_message ⟨some "sid", [], ["old"]⟩ "q" HttpResult.connError
          HttpResult.connError).errors ≠ [])) :=
  ⟨⟨by decide, by decide⟩,
    C4_exchange_failure_messages ⟨some "sid", [], ["old"]⟩ "q" HttpResult.connError
      404 ⟨"r", ["new"]⟩ (by decide) (by decide)⟩

/-- C5: with an active session and a successful exchange returning reply
`body.response` and suggestions `body.suggestions`, `send_message` appends
exactly the user message followed by the assistant reply, and replaces the
suggestion list wholesale. -/
theorem C5_success_appends_pair (st : ConversationState) (t : String)
    (cr : HttpResult String) (body : ChatBody)
    (hs : truthy st.session_id = true) :
    (send_message st t cr (HttpResult.ok 200 body)).state.messages =
      st.messages ++ [⟨Role.user, t⟩, ⟨Role.assistant, body.response⟩] ∧
    (send_message st t cr (HttpResult.ok 200 body)).state.suggestions =
      body.suggestions := by
  refine ⟨?_, ?_⟩ <;> simp [send_message, hs, sendExchange]

theorem C5_success_appends_pair_witness :
    truthy (ConversationState.mk (some "s1") [] []).session_id = true ∧
    ((send_message ⟨some "s1", [], []⟩ "I have sharp pain" HttpResult.connError
        (HttpResult.ok 200 ⟨"Tell me more", ["Since when?", "Any fever?"]⟩)).state.messages =
      (ConversationState.mk (some "s1") [] []).messages ++
        [⟨Role.user, "I have sharp pain"⟩, ⟨Role.assistant, "Tell me more"⟩] ∧
    (send_message ⟨some "s1", [], []⟩ "I have sharp pain" HttpResult.connError
        (HttpResult.ok 200 ⟨"Tell me more", ["Since when?", "Any fever?"]⟩)).state.suggestions =
      ["Since when?", "Any fever?"]) :=
  ⟨by decide,
    C5_success_appends_pair ⟨some "s1", [], []⟩ "I have sharp pain"
      HttpResult.connError ⟨"Tell me more", ["Since when?", "Any fever?"]⟩ (by decide)⟩

/-- Iterate `send_message` over a list of (text, successful chat body)
pairs, all exchanges succeeding with HTTP 200. The session-creation oracle
is never consulted while the session stays active. -/
def runSends (st : ConversationState) : List (String × ChatBody) → ConversationState
  | [] => st
  | (t, body) :: rest =>
      runSends (send_message st t (HttpResult.ok 200 "") (HttpResult.ok 200 body)).state rest

/-- Expected role pattern of a log after `n` successful sends: user,
assistant, user, assistant, ..., oldest first. -/
def altRoles : Nat → List Role
  | 0 => []
  | n + 1 => Role.user :: Role.assistant :: altRoles n

lemma send_ok_state (st : ConversationState) (t : String)
    (cr : HttpResult String) (body : ChatBody)
    (hs : truthy st.session_id = true) :
    (send_message st t cr (HttpResult.ok 200 body)).state =
      { st with
          messages := st.messages ++ [⟨Role.user, t⟩, ⟨Role.assistant, body.response⟩],
          suggestions := body.suggestions } := by
  simp [send_message, hs, sendExchange]

lemma runSends_spec (sends : List (String × ChatBody)) :
    ∀ st : ConversationState, truthy st.session_id = true →
    (runSends st sends).session_id = st.session_id ∧
    (runSends st sends).messages =
      st.messages ++ sends.flatMap
        (fun p => [⟨Role.user, p.1⟩, ⟨Role.assistant, p.2.response⟩]) := by
  induction sends with
  | nil => intro st hs; simp [runSends]
  | cons p rest ih =>
      intro st hs
      obtain ⟨t, body⟩ := p
      simp only [runSends]
      rw [send_ok_state st t _ body hs]
      obtain ⟨h1, h2⟩ :=
        ih { st with
              messages := st.messages ++
                [⟨Role.user, t⟩, ⟨Role.assistant, body.response⟩],
              suggestions := body.suggestions } hs
      refine ⟨h1, ?_⟩
      rw [h2]
      simp

lemma flatMap_pairs_length (sends : List (String × ChatBody)) :
    (sends.flatMap
      (fun p => [(⟨Role.user, p.1⟩ : Message), ⟨Role.assistant, p.2.response⟩])).length =
      2 * sends.length := by
  induction sends with
  | nil => rfl
  | cons p rest ih =>
      simp only [List.flatMap_cons, List.length_append, ih, List.length_cons,
        List.length_nil]
      omega

lemma flatMap_pairs_roles (sends : List (String × ChatBody)) :
    (sends.flatMap
      (fun p => [(⟨Role.user, p.1⟩ : Message), ⟨Role.assistant, p.2.response⟩])).map
        Message.role = altRoles sends.length := by
  induction sends with
  | nil => rfl
  | cons p rest ih => simp [altRoles, ih]

/-- C6: starting from a fresh session with an empty log, after any number
of `send_message` calls that all succeed, the message log has exactly twice
as many entries as calls, in strict alternating user/assistant order,
oldest first. -/
theorem C6_alternating_log (sid : String) (sends : List (String × ChatBody))
    (hsid : sid ≠ "") :
    (runSends ⟨some sid, [], []⟩ sends).messages.length = 2 * sends.length ∧
    (runSends ⟨some sid, [], []⟩ sends).messages.map Message.role =
      altRoles sends.length := by
  have hs : truthy (ConversationState.mk (some sid) [] []).session_id = true := by
    simp [truthy, hsid]
  obtain ⟨-, h2⟩ := runSends_spec sends _ hs
  rw [h2]
  simp only [List.nil_append]
  exact ⟨flatMap_pairs_length sends, flatMap_pairs_roles sends⟩

theorem C6_alternating_log_witness :
    ("s" : String) ≠ "" ∧
    ((runSends ⟨some "s", [], []⟩
        [("a", ⟨"r1", []⟩), ("b", ⟨"r2", ["x"]⟩)]).messages.length =
      2 * ([("a", (⟨"r1", []⟩ : ChatBody)), ("b", ⟨"r2", ["x"]⟩)] : List (String × ChatBody)).length ∧
    (runSends ⟨some "s", [], []⟩
        [("a", ⟨"r1", []⟩), ("b", ⟨"r2", ["x"]⟩)]).messages.map Message.role =
      altRoles ([("a", (⟨"r1", []⟩ : ChatBody)), ("b", ⟨"r2", ["x"]⟩)] : List (String × ChatBody)).length) :=
  ⟨by decide,
    C6_alternating_log "s" [("a", ⟨"r1", []⟩), ("b", ⟨"r2", ["x"]⟩)] (by decide)⟩

/-- C8: two consecutive `reset` calls whose session creations succeed both
leave an empty log and empty suggestions with a fresh session present, and
the two resulting states agree up to the session-id value. -/
theorem C8_reset_idempotent (st : ConversationState) (sid1 sid2 : String) :
    ((reset st (HttpResult.ok 200 sid1)).1.session_id = some sid1 ∧
      (reset st (HttpResult.ok 200 sid1)).1.messages = [] ∧
      (reset st (HttpResult.ok 200 sid1)).1.suggestions = []) ∧
    ((reset (reset st (HttpResult.ok 200 sid1)).1 (HttpResult.ok 200 sid2)).1.session_id =
        some sid2 ∧
      (reset (reset st (HttpResult.ok 200 sid1)).1 (HttpResult.ok 200 sid2)).1.messages = [] ∧
      (reset (reset st (HttpResult.ok 200 sid1)).1 (HttpResult.ok 200 sid2)).1.suggestions = []) ∧
    { (reset (reset st (HttpResult.ok 200 sid1)).1 (HttpResult.ok 200 sid2)).1 with
        session_id := (reset st (HttpResult.ok 200 sid1)).1.session_id } =
      (reset st (HttpResult.ok 200 sid1)).1 :=
  ⟨⟨rfl, rfl, rfl⟩, ⟨rfl, rfl, rfl⟩, rfl⟩

/-- C9: `send_message` does not special-case empty text. With an active
session the empty user message is appended and the exchange is attempted,
and the rest of the update is the same as for any other text: both logs
extend the prior log by their user message followed by an identical tail. -/
theorem C9_no_empty_text_special_case (st : ConversationState) (t : String)
    (cr : HttpResult String) (er : HttpResult ChatBody)
    (hs : truthy st.session_id = true) :
    (send_message st "" cr er).exchangeAttempted = true ∧
    ∃ tail,
      (send_message st "" cr er).state.messages =
        st.messages ++ ⟨Role.user, ""⟩ :: tail ∧
      (send_message st t cr er).state.messages =
        st.messages ++ ⟨Role.user, t⟩ :: tail := by
  refine ⟨?_, ?_⟩
  · simp only [send_message, hs, if_true]
    exact sendExchange_attempted st "" er []
  · cases er with
    | ok status body =>
        by_cases h200 : status = 200
        · exact ⟨[⟨Role.assistant, body.response⟩],
            by simp [send_message, hs, sendExchange, h200],
            by simp [send_message, hs, sendExchange, h200]⟩
        · exact ⟨[⟨Role.assistant, "Sorry, I encountered an error. Please try again."⟩],
            by simp [send_message, hs, sendExchange, h200],
            by simp [send_message, hs, sendExchange, h200]⟩
    | connError =>
        exact ⟨[⟨Role.assistant, "I can\x27t connect to my brain right now. Please check the server."⟩],
          by simp [send_message, hs, sendExchange],
          by simp [send_message, hs, sendExchange]⟩
    | exc e =>
        exact ⟨[],
          by simp [send_message, hs, sendExchange],
          by simp [send_message, hs, sendExchange]⟩

theorem C9_no_empty_text_special_case_witness :
    truthy (ConversationState.mk (some "s2") [] []).session_id = true ∧
    ((send_message ⟨some "s2", [], []⟩ "" HttpResult.connError
        (HttpResult.ok 200 ⟨"re", ["q"]⟩)).exchangeAttempted = true ∧
    ∃ tail,
      (send_message ⟨some "s2", [], []⟩ "" HttpResult.connError
          (HttpResult.ok 200 ⟨"re", ["q"]⟩)).state.messages =
        (ConversationState.mk (some "s2") [] []).messages ++ ⟨Role.user, ""⟩ :: tail ∧
      (send_message ⟨some "s2", [], []⟩ "hello" HttpResult.connError
          (HttpResult.ok 200 ⟨"re", ["q"]⟩)).state.messages =
        (ConversationState.mk (some "s2") [] []).messages ++ ⟨Role.user, "hello"⟩ :: tail) :=
  ⟨by decide,
    C9_no_empty_text_special_case ⟨some "s2", [], []⟩ "hello" HttpResult.connError
      (HttpResult.ok 200 ⟨"re", ["q"]⟩) (by decide)⟩

/-- C10: with an active session, `send_message` never changes the session
identifier, whatever the outcome of the exchange. -/
theorem C10_send_preserves_session (st : ConversationState) (t : String)
    (cr : HttpResult String) (er : HttpResult ChatBody)
    (hs : truthy st.session_id = true) :
    (send_message st t cr er).state.session_id = st.session_id := by
  simp only [send_message, hs, if_true]
  exact sendExchange_session st t er []

theorem C10_send_preserves_session_witness :
    truthy (ConversationState.mk (some "s3") [] []).session_id = true ∧
    (send_message ⟨some "s3", [], []⟩ "hi" HttpResult.connError
        HttpResult.connError).state.session_id =
      (ConversationState.mk (some "s3") [] []).session_id :=
  ⟨by decide,
    C10_send_preserves_session ⟨some "s3", [], []⟩ "hi" HttpResult.connError
      HttpResult.connError (by decide)⟩
